import Mathlib

/-
Verification of the group-chat orchestration core of this repository
(src/group_chat.py, class ChatCompletionGroupChatManager and the run
configuration in main).

Shallow embedding conventions:
- A ChatHistory is the ordered list of messages; the Python code mutates the
  `chat_history` argument in place (`messages.insert(0, ...)` and
  `add_message(...)`), so every manager method here returns, next to its
  decision outcome, the post-call state of the history object it was given,
  and a flag recording whether the external chat-completion service was
  queried during the call.
- The external chat-completion service is a function from the submitted
  history to the optional content string of its response
  (`response.content`); `response.content or "\x7b\x7d"` is modelled by
  `contentOrDefault`.
- Pydantic structured-output parsing (`model_validate_json`) is an external
  fallible capability, modelled as a function `String → Option R`; a raised
  validation error is modelled as `ManagerError.decisionParse`.
- Python `raise RuntimeError(...)` is modelled by `Except.error`.
-/

namespace GroupChat

/-- Roles of chat messages (semantic_kernel AuthorRole values used here). -/
inductive AuthorRole where
  | system
  | user
  | assistant
deriving DecidableEq, Repr

/-- A chat message: role plus textual content (ChatMessageContent). -/
structure ChatMessageContent where
  role : AuthorRole
  content : String
deriving DecidableEq, Repr

/-- The ordered conversation history (ChatHistory.messages). -/
abbrev ChatHistory := List ChatMessageContent

/-- Structured decision shape for boolean decisions (BooleanResult). -/
structure BooleanResult where
  result : Bool
  reason : String
deriving DecidableEq, Repr

/-- Structured decision shape for string decisions (StringResult). -/
structure StringResult where
  result : String
  reason : String
deriving DecidableEq, Repr

/-- Structured decision shape wrapping a message (MessageResult). -/
structure MessageResult where
  result : ChatMessageContent
  reason : String
deriving DecidableEq, Repr

/-- Errors raised by the manager methods. `decisionParse` models a pydantic
validation failure in `model_validate_json`; `unknownParticipant` models
`RuntimeError("Unknown participant selected: ...")`; `emptyHistory` models
`RuntimeError("No messages in the chat history.")`. -/
inductive ManagerError where
  | decisionParse (content : String)
  | unknownParticipant (content : String)
  | emptyHistory
deriving DecidableEq, Repr

/-- Result of running one manager method: the decision (or raised error),
the state of the `chat_history` object after the call, and whether the
external chat-completion service was queried. -/
structure DecisionOutcome (R : Type) where
  outcome : Except ManagerError R
  history : ChatHistory
  queried : Bool

/-- The `termination_prompt` template string of ChatCompletionGroupChatManager. -/
def termination_prompt : String :=
  "You are mediator that guides a discussion on the topic of \x27\x7b\x7b$topic\x7d\x7d\x27. " ++
  "You need to determine if the discussion has reached a conclusion. " ++
  "If you would like to end the discussion, please respond with True. Otherwise, respond with False."

/-- The `selection_prompt` template string of ChatCompletionGroupChatManager. -/
def selection_prompt : String :=
  "You are mediator that guides a discussion on the topic of \x27\x7b\x7b$topic\x7d\x7d\x27. " ++
  "You need to select the next participant to speak. " ++
  "Here are the names and descriptions of the participants: " ++
  "\x7b\x7b$participants\x7d\x7d\n" ++
  "Please respond with only the name of the participant you would like to select."

/-- The `result_filter_prompt` template string of ChatCompletionGroupChatManager. -/
def result_filter_prompt : String :=
  "You are mediator that guides a discussion on the topic of \x27\x7b\x7b$topic\x7d\x7d\x27. " ++
  "You have just concluded the discussion. " ++
  "Please summarize the discussion and provide a closing statement."

/-- The `_render_prompt` helper: renders a template by substituting each
named argument for its `\x7b\x7b$name\x7d\x7d` placeholder (KernelPromptTemplate
rendering restricted to the variable substitutions these templates use). -/
def render_prompt (template : String) (arguments : List (String × String)) : String :=
  arguments.foldl
    (fun acc kv => acc.replace ("\x7b\x7b$" ++ kv.1 ++ "\x7d\x7d") kv.2)
    template

/-- Models `response.content or "\x7b\x7d"`: a missing or empty content string
falls back to the literal two-character brace string. -/
def contentOrDefault : Option String → String
  | none => "\x7b\x7d"
  | some s => if s = "" then "\x7b\x7d" else s

/-- The transient shape `should_terminate` builds inside the passed history:
the rendered termination framing System message inserted at index 0, and the
fixed User message appended at the end. -/
def terminationFraming (topic : String) (chat_history : ChatHistory) : ChatHistory :=
  { role := AuthorRole.system,
    content := render_prompt termination_prompt [("topic", topic)] }
  :: chat_history
  ++ [{ role := AuthorRole.user, content := "Determine if the discussion should end." }]

/-- The shape `select_next_agent` builds inside the passed history: the
rendered selection framing System message (listing every participant with its
description) inserted at index 0, and the fixed User message appended. -/
def selectionFraming (topic : String) (participant_descriptions : List (String × String))
    (chat_history : ChatHistory) : ChatHistory :=
  { role := AuthorRole.system,
    content := render_prompt selection_prompt
      [("topic", topic),
       ("participants",
        String.intercalate "\n"
          (participant_descriptions.map (fun kv => kv.1 ++ ": " ++ kv.2)))] }
  :: chat_history
  ++ [{ role := AuthorRole.user, content := "Now select the next participant to speak." }]

/-- The shape `filter_results` builds inside the passed history: the rendered
result-filter framing System message inserted at index 0, and the fixed User
message appended. -/
def filterFraming (topic : String) (chat_history : ChatHistory) : ChatHistory :=
  { role := AuthorRole.system,
    content := render_prompt result_filter_prompt [("topic", topic)] }
  :: chat_history
  ++ [{ role := AuthorRole.user, content := "Please summarize the discussion." }]

/-- `should_request_user_input` (src/group_chat.py lines 316-325): returns a
constant-false BooleanResult; it touches neither the history nor the service. -/
def should_request_user_input (chat_history : ChatHistory) : DecisionOutcome BooleanResult :=
  { outcome := Except.ok
      { result := false,
        reason := "This group chat manager does not require user input." },
    history := chat_history,
    queried := false }

/-- `should_terminate` (src/group_chat.py lines 327-363). `base` is the
decision returned by `super().should_terminate(chat_history)` (library code);
if it already signals termination it is returned unchanged. Otherwise the two
framing messages are inserted into `chat_history` itself, the service is
queried on that mutated history, and its content is parsed as a BooleanResult
(`parse` models `BooleanResult.model_validate_json`, raising on failure). -/
def should_terminate (topic : String) (base : BooleanResult)
    (service : ChatHistory → Option String)
    (parse : String → Option BooleanResult)
    (chat_history : ChatHistory) : DecisionOutcome BooleanResult :=
  if base.result then
    { outcome := Except.ok base, history := chat_history, queried := false }
  else
    let framed := terminationFraming topic chat_history
    let content := contentOrDefault (service framed)
    match parse content with
    | some r => { outcome := Except.ok r, history := framed, queried := true }
    | none => { outcome := Except.error (ManagerError.decisionParse content),
                history := framed, queried := true }

/-- `select_next_agent` (src/group_chat.py lines 365-409): inserts the two
framing messages into `chat_history` itself, queries the service, parses the
content as a StringResult, and accepts the decision only when its `result`
field is a key of `participant_descriptions`; otherwise it raises the
unknown-participant error. -/
def select_next_agent (topic : String)
    (participant_descriptions : List (String × String))
    (service : ChatHistory → Option String)
    (parse : String → Option StringResult)
    (chat_history : ChatHistory) : DecisionOutcome StringResult :=
  let framed := selectionFraming topic participant_descriptions chat_history
  let content := contentOrDefault (service framed)
  match parse content with
  | some r =>
      if (participant_descriptions.map Prod.fst).contains r.result then
        { outcome := Except.ok r, history := framed, queried := true }
      else
        { outcome := Except.error (ManagerError.unknownParticipant content),
          history := framed, queried := true }
  | none => { outcome := Except.error (ManagerError.decisionParse content),
              history := framed, queried := true }

/-- `filter_results` (src/group_chat.py lines 411-446): raises the
empty-history error when the received history has no messages; otherwise
inserts the two framing messages into `chat_history` itself, queries the
service, parses the content as a StringResult, and wraps its `result` field
into an Assistant message. -/
def filter_results (topic : String)
    (service : ChatHistory → Option String)
    (parse : String → Option StringResult)
    (chat_history : ChatHistory) : DecisionOutcome MessageResult :=
  if chat_history.isEmpty then
    { outcome := Except.error ManagerError.emptyHistory,
      history := chat_history, queried := false }
  else
    let framed := filterFraming topic chat_history
    let content := contentOrDefault (service framed)
    match parse content with
    | some s =>
        { outcome := Except.ok
            { result := { role := AuthorRole.assistant, content := s.result },
              reason := s.reason },
          history := framed, queried := true }
    | none => { outcome := Except.error (ManagerError.decisionParse content),
                history := framed, queried := true }

/-- Modelled from the spec: the base-class termination check
(`GroupChatManager.should_terminate`, semantic_kernel library code not under
src/), which `should_terminate` above calls as `super().should_terminate`.
Per the spec it forces termination with reason "round limit reached" once
round-index has reached `max_rounds`, and otherwise declines to terminate. -/
def baseShouldTerminate (round_index max_rounds : Nat) : BooleanResult :=
  if max_rounds ≤ round_index then
    { result := true, reason := "round limit reached" }
  else
    { result := false, reason := "" }

/-- A participant: unique name, description used in selection prompts, and
the external generate capability (a black box producing the next message
from a history snapshot). -/
structure Participant where
  name : String
  description : String
  generate : ChatHistory → ChatMessageContent

/-- Result of an orchestration run: the final summary or the fatal error,
the canonical history at exit, the number of completed participant turns,
and the round-index value observed at the start of each completed turn. -/
structure RunResult where
  outcome : Except ManagerError MessageResult
  history : ChatHistory
  turns : Nat
  rounds : List Nat

/-- Modelled from the spec: the Orchestrator driver loop
(`GroupChatOrchestration` plus its runtime, semantic_kernel library code not
under src/), specialised to the manager methods defined above. Per spec
section 4.1 each iteration (a) asks the termination evaluator over a
read-only snapshot of the canonical history — the evaluator receives and
mutates a disposable copy, so only its decision outcome is kept; (b) forces
termination when round-index has reached `max_rounds`, independently of (a);
(c) asks the speaker selector, failing the run on an unknown participant;
(d) invokes the selected participant on the snapshot, appends the produced
message to the canonical history and increments round-index. On loop exit the
result filter runs once over the canonical history. -/
def orchestrate_loop (topic : String) (max_rounds : Nat)
    (participants : List Participant)
    (tservice sservice fservice : ChatHistory → Option String)
    (tparse : String → Option BooleanResult)
    (sparse fparse : String → Option StringResult)
    (history : ChatHistory) (round_index : Nat) : RunResult :=
  let descriptions := participants.map (fun p => (p.name, p.description))
  let td := should_terminate topic (baseShouldTerminate round_index max_rounds)
    tservice tparse history
  match td.outcome with
  | Except.error e =>
      { outcome := Except.error e, history := history,
        turns := round_index, rounds := [] }
  | Except.ok d =>
    if hcont : d.result = false ∧ round_index < max_rounds then
      match (select_next_agent topic descriptions sservice sparse history).outcome with
      | Except.error e =>
          { outcome := Except.error e, history := history,
            turns := round_index, rounds := [] }
      | Except.ok sel =>
        match participants.find? (fun p => p.name == sel.result) with
        | none =>
            { outcome := Except.error (ManagerError.unknownParticipant sel.result),
              history := history, turns := round_index, rounds := [] }
        | some p =>
            let message := p.generate history
            let rest := orchestrate_loop topic max_rounds participants
              tservice sservice fservice tparse sparse fparse
              (history ++ [message]) (round_index + 1)
            { rest with rounds := round_index :: rest.rounds }
    else
      { outcome := (filter_results topic fservice fparse history).outcome,
        history := history, turns := round_index, rounds := [] }
termination_by max_rounds - round_index
decreasing_by
  have := hcont.2
  omega

/-- Modelled from the spec: a whole run — seed the canonical history with one
User message carrying the task, then drive the loop from round-index 0. -/
def orchestrate (task topic : String) (max_rounds : Nat)
    (participants : List Participant)
    (tservice sservice fservice : ChatHistory → Option String)
    (tparse : String → Option BooleanResult)
    (sparse fparse : String → Option StringResult) : RunResult :=
  orchestrate_loop topic max_rounds participants
    tservice sservice fservice tparse sparse fparse
    [{ role := AuthorRole.user, content := task }] 0

/-- One-step characterisation: when the termination evaluator raises, the
loop exits with that error, the canonical history unchanged. -/
theorem orchestrate_loop_tderror (topic : String) (max_rounds : Nat)
    (participants : List Participant)
    (tservice sservice fservice : ChatHistory → Option String)
    (tparse : String → Option BooleanResult)
    (sparse fparse : String → Option StringResult)
    (history : ChatHistory) (round_index : Nat) (e : ManagerError)
    (h : (should_terminate topic (baseShouldTerminate round_index max_rounds)
        tservice tparse history).outcome = Except.error e) :
    orchestrate_loop topic max_rounds participants
      tservice sservice fservice tparse sparse fparse history round_index =
      { outcome := Except.error e, history := history,
        turns := round_index, rounds := [] } := by
  rw [orchestrate_loop.eq_def]
  simp [h]

/-- One-step characterisation: when the termination evaluator yields a
decision and either that decision is positive or the round cap is hit, the
loop exits through the result filter on the canonical history. -/
theorem orchestrate_loop_exit (topic : String) (max_rounds : Nat)
    (participants : List Participant)
    (tservice sservice fservice : ChatHistory → Option String)
    (tparse : String → Option BooleanResult)
    (sparse fparse : String → Option StringResult)
    (history : ChatHistory) (round_index : Nat) (d : BooleanResult)
    (h : (should_terminate topic (baseShouldTerminate round_index max_rounds)
        tservice tparse history).outcome = Except.ok d)
    (hstop : ¬ (d.result = false ∧ round_index < max_rounds)) :
    orchestrate_loop topic max_rounds participants
      tservice sservice fservice tparse sparse fparse history round_index =
      { outcome := (filter_results topic fservice fparse history).outcome,
        history := history, turns := round_index, rounds := [] } := by
  rw [orchestrate_loop.eq_def]
  simp [h, hstop]

/-- One-step characterisation: when the loop continues but the speaker
selector raises, the loop exits with that error, history unchanged. -/
theorem orchestrate_loop_selerror (topic : String) (max_rounds : Nat)
    (participants : List Participant)
    (tservice sservice fservice : ChatHistory → Option String)
    (tparse : String → Option BooleanResult)
    (sparse fparse : String → Option StringResult)
    (history : ChatHistory) (round_index : Nat) (d : BooleanResult)
    (e : ManagerError)
    (h : (should_terminate topic (baseShouldTerminate round_index max_rounds)
        tservice tparse history).outcome = Except.ok d)
    (hcont : d.result = false ∧ round_index < max_rounds)
    (hsel : (select_next_agent topic
        (participants.map (fun p => (p.name, p.description)))
        sservice sparse history).outcome = Except.error e) :
    orchestrate_loop topic max_rounds participants
      tservice sservice fservice tparse sparse fparse history round_index =
      { outcome := Except.error e, history := history,
        turns := round_index, rounds := [] } := by
  rw [orchestrate_loop.eq_def]
  simp [h, hcont, hsel]

/-- One-step characterisation: when the selector returns a registered name
that nevertheless matches no participant record, the loop exits with the
unknown-participant error. -/
theorem orchestrate_loop_findnone (topic : String) (max_rounds : Nat)
    (participants : List Participant)
    (tservice sservice fservice : ChatHistory → Option String)
    (tparse : String → Option BooleanResult)
    (sparse fparse : String → Option StringResult)
    (history : ChatHistory) (round_index : Nat) (d : BooleanResult)
    (sel : StringResult)
    (h : (should_terminate topic (baseShouldTerminate round_index max_rounds)
        tservice tparse history).outcome = Except.ok d)
    (hcont : d.result = false ∧ round_index < max_rounds)
    (hsel : (select_next_agent topic
        (participants.map (fun p => (p.name, p.description)))
        sservice sparse history).outcome = Except.ok sel)
    (hfind : participants.find? (fun p => p.name == sel.result) = none) :
    orchestrate_loop topic max_rounds participants
      tservice sservice fservice tparse sparse fparse history round_index =
      { outcome := Except.error (ManagerError.unknownParticipant sel.result),
        history := history, turns := round_index, rounds := [] } := by
  rw [orchestrate_loop.eq_def]
  simp [h, hcont, hsel, hfind]

/-- One-step characterisation: a completed participant turn — the selected
participant generates a message that is appended to the canonical history,
round-index increments by exactly 1, and the loop recurses. -/
theorem orchestrate_loop_turn (topic : String) (max_rounds : Nat)
    (participants : List Participant)
    (tservice sservice fservice : ChatHistory → Option String)
    (tparse : String → Option BooleanResult)
    (sparse fparse : String → Option StringResult)
    (history : ChatHistory) (round_index : Nat) (d : BooleanResult)
    (sel : StringResult) (p : Participant)
    (h : (should_terminate topic (baseShouldTerminate round_index max_rounds)
        tservice tparse history).outcome = Except.ok d)
    (hcont : d.result = false ∧ round_index < max_rounds)
    (hsel : (select_next_agent topic
        (participants.map (fun p => (p.name, p.description)))
        sservice sparse history).outcome = Except.ok sel)
    (hfind : participants.find? (fun p => p.name == sel.result) = some p) :
    orchestrate_loop topic max_rounds participants
      tservice sservice fservice tparse sparse fparse history round_index =
      { orchestrate_loop topic max_rounds participants
          tservice sservice fservice tparse sparse fparse
          (history ++ [p.generate history]) (round_index + 1) with
        rounds := round_index ::
          (orchestrate_loop topic max_rounds participants
            tservice sservice fservice tparse sparse fparse
            (history ++ [p.generate history]) (round_index + 1)).rounds } := by
  rw [orchestrate_loop.eq_def]
  simp [h, hcont, hsel, hfind]

/-- Loop invariant: starting from round-index `round_index ≤ max_rounds`,
the final turn count lies between `round_index` and `max_rounds`, and the
recorded per-turn round-index values are exactly the consecutive integers
from `round_index` — round-index increases by exactly 1 per completed turn. -/
theorem orchestrate_loop_invariant (topic : String) (max_rounds : Nat)
    (participants : List Participant)
    (tservice sservice fservice : ChatHistory → Option String)
    (tparse : String → Option BooleanResult)
    (sparse fparse : String → Option StringResult) :
    ∀ n round_index history, max_rounds - round_index ≤ n →
      round_index ≤ max_rounds →
      round_index ≤ (orchestrate_loop topic max_rounds participants
        tservice sservice fservice tparse sparse fparse history round_index).turns ∧
      (orchestrate_loop topic max_rounds participants
        tservice sservice fservice tparse sparse fparse history round_index).turns ≤ max_rounds ∧
      (orchestrate_loop topic max_rounds participants
          tservice sservice fservice tparse sparse fparse history round_index).rounds =
        List.range' round_index
          ((orchestrate_loop topic max_rounds participants
            tservice sservice fservice tparse sparse fparse history round_index).turns
            - round_index) := by
  intro n
  induction n with
  | zero =>
    intro round_index history hfuel hle
    have heq : round_index = max_rounds := by omega
    have hbase : (should_terminate topic (baseShouldTerminate round_index max_rounds)
        tservice tparse history) =
        { outcome := Except.ok (baseShouldTerminate round_index max_rounds),
          history := history, queried := false } := by
      unfold should_terminate baseShouldTerminate
      simp [heq]
    have hres : (baseShouldTerminate round_index max_rounds).result = true := by
      unfold baseShouldTerminate
      simp [heq]
    rw [orchestrate_loop_exit topic max_rounds participants tservice sservice fservice
      tparse sparse fparse history round_index _ (by rw [hbase]) (by simp [hres])]
    simp [heq]
  | succ n ih =>
    intro round_index history hfuel hle
    cases h1 : (should_terminate topic (baseShouldTerminate round_index max_rounds)
        tservice tparse history).outcome with
    | error e =>
      rw [orchestrate_loop_tderror topic max_rounds participants tservice sservice fservice
        tparse sparse fparse history round_index e h1]
      simpa using hle
    | ok d =>
      by_cases hcont : d.result = false ∧ round_index < max_rounds
      · cases h2 : (select_next_agent topic
            (participants.map (fun p => (p.name, p.description)))
            sservice sparse history).outcome with
        | error e =>
          rw [orchestrate_loop_selerror topic max_rounds participants tservice sservice
            fservice tparse sparse fparse history round_index d e h1 hcont h2]
          simpa using hle
        | ok sel =>
          cases h3 : participants.find? (fun p => p.name == sel.result) with
          | none =>
            rw [orchestrate_loop_findnone topic max_rounds participants tservice sservice
              fservice tparse sparse fparse history round_index d sel h1 hcont h2 h3]
            simpa using hle
          | some p =>
            rw [orchestrate_loop_turn topic max_rounds participants tservice sservice
              fservice tparse sparse fparse history round_index d sel p h1 hcont h2 h3]
            obtain ⟨ha, hb, hc⟩ := ih (round_index + 1) (history ++ [p.generate history])
              (by omega) (by omega)
            refine ⟨by simpa using by omega, by simpa using hb, ?_⟩
            simp only []
            rw [hc]
            have hsplit : (orchestrate_loop topic max_rounds participants
                tservice sservice fservice tparse sparse fparse
                (history ++ [p.generate history]) (round_index + 1)).turns - round_index =
                ((orchestrate_loop topic max_rounds participants
                  tservice sservice fservice tparse sparse fparse
                  (history ++ [p.generate history]) (round_index + 1)).turns
                  - (round_index + 1)) + 1 := by omega
            rw [hsplit, List.range'_succ]
      · rw [orchestrate_loop_exit topic max_rounds participants tservice sservice fservice
          tparse sparse fparse history round_index d h1 hcont]
        simp [hle]

/-- C8: for every history, `should_request_user_input` returns a
BooleanDecision whose value is false, with no external call and no
modification of the history. -/
theorem C8_user_input_stub (chat_history : ChatHistory) :
    should_request_user_input chat_history =
      { outcome := Except.ok
          { result := false,
            reason := "This group chat manager does not require user input." },
        history := chat_history, queried := false } := rfl

/-- C10: `filter_results` on a history with zero messages raises the
empty-history error before any mutation or external call: the history is
left unchanged and the service is never queried. -/
theorem C10_filter_results_empty_no_effect (topic : String)
    (service : ChatHistory → Option String)
    (parse : String → Option StringResult) :
    filter_results topic service parse [] =
      { outcome := Except.error ManagerError.emptyHistory,
        history := [], queried := false } := rfl

/-- C6: `filter_results` fails with the empty-history error if and only if
the history it receives contains zero messages. -/
theorem C6_empty_history_error_iff (topic : String)
    (service : ChatHistory → Option String)
    (parse : String → Option StringResult)
    (chat_history : ChatHistory) :
    (filter_results topic service parse chat_history).outcome =
      Except.error ManagerError.emptyHistory ↔ chat_history = [] := by
  cases chat_history with
  | nil => simp [filter_results]
  | cons m rest =>
    cases hp : parse (contentOrDefault (service (filterFraming topic (m :: rest)))) with
    | none => simp [filter_results, hp]
    | some s => simp [filter_results, hp]

/-- C9: whenever the base termination check (which enforces the round cap)
returns a true decision, `should_terminate` returns that decision unchanged:
the service is not queried and no framing messages are inserted into the
history. -/
theorem C9_base_true_short_circuit (topic : String) (base : BooleanResult)
    (service : ChatHistory → Option String)
    (parse : String → Option BooleanResult)
    (chat_history : ChatHistory) (h : base.result = true) :
    should_terminate topic base service parse chat_history =
      { outcome := Except.ok base, history := chat_history, queried := false } := by
  unfold should_terminate
  simp [h]

/-- Witness for C9 at a concrete forced-termination decision. -/
theorem C9_base_true_witness :
    should_terminate "taxation" { result := true, reason := "round limit reached" }
      (fun _ => none) (fun _ => none)
      [{ role := AuthorRole.user, content := "Please start the discussion." }] =
      { outcome := Except.ok { result := true, reason := "round limit reached" },
        history := [{ role := AuthorRole.user, content := "Please start the discussion." }],
        queried := false } :=
  C9_base_true_short_circuit "taxation" _ _ _ _ rfl

/-- C5: for both the termination and the selection decision query, when the
service response content cannot be parsed into the expected structured shape,
the method fails with a parse error; no default decision value is
substituted. -/
theorem C5_parse_failure_fatal (topic : String) (base : BooleanResult)
    (tservice sservice : ChatHistory → Option String)
    (tparse : String → Option BooleanResult)
    (sparse : String → Option StringResult)
    (participant_descriptions : List (String × String))
    (chat_history : ChatHistory)
    (hbase : base.result = false)
    (ht : tparse (contentOrDefault (tservice (terminationFraming topic chat_history))) = none)
    (hs : sparse (contentOrDefault
        (sservice (selectionFraming topic participant_descriptions chat_history))) = none) :
    (should_terminate topic base tservice tparse chat_history).outcome =
      Except.error (ManagerError.decisionParse
        (contentOrDefault (tservice (terminationFraming topic chat_history)))) ∧
    (select_next_agent topic participant_descriptions sservice sparse chat_history).outcome =
      Except.error (ManagerError.decisionParse
        (contentOrDefault
          (sservice (selectionFraming topic participant_descriptions chat_history)))) := by
  constructor
  · simp [should_terminate, hbase, ht]
  · simp [select_next_agent, hs]

/-- Witness for C5 at concrete unparsable responses. -/
theorem C5_parse_failure_witness :
    (should_terminate "t" { result := false, reason := "" }
        (fun _ => none) (fun _ => none) []).outcome =
      Except.error (ManagerError.decisionParse "\x7b\x7d") ∧
    (select_next_agent "t" [("A", "a")] (fun _ => none) (fun _ => none) []).outcome =
      Except.error (ManagerError.decisionParse "\x7b\x7d") :=
  C5_parse_failure_fatal "t" { result := false, reason := "" }
    (fun _ => none) (fun _ => none) (fun _ => none) (fun _ => none)
    [("A", "a")] [] rfl rfl rfl

/-- C7: for every non-empty history, when the service response parses as a
StringResult, `filter_results` returns the decision wrapping the parsed
`result` field into an Assistant-role message, with the parsed `reason`. -/
theorem C7_summary_wraps_parsed_result (topic : String)
    (service : ChatHistory → Option String)
    (parse : String → Option StringResult)
    (chat_history : ChatHistory) (s : StringResult)
    (hne : chat_history ≠ [])
    (hp : parse (contentOrDefault (service (filterFraming topic chat_history))) = some s) :
    (filter_results topic service parse chat_history).outcome =
      Except.ok { result := { role := AuthorRole.assistant, content := s.result },
                  reason := s.reason } := by
  cases chat_history with
  | nil => exact absurd rfl hne
  | cons m rest => simp [filter_results, hp]

/-- Witness for C7 at a concrete non-empty history and parsed summary. -/
theorem C7_summary_witness :
    ([{ role := AuthorRole.user, content := "Please start the discussion." }] ≠
      ([] : ChatHistory)) ∧
    (filter_results "t" (fun _ => none)
        (fun _ => some { result := "summary", reason := "done" })
        [{ role := AuthorRole.user, content := "Please start the discussion." }]).outcome =
      Except.ok { result := { role := AuthorRole.assistant, content := "summary" },
                  reason := "done" } :=
  ⟨by simp,
    C7_summary_wraps_parsed_result "t" _ _ _ _ (by simp) rfl⟩

/-- C1 counterexample: the claim says framing messages are added only to a
transient copy and never to the (canonical) history, so the history object a
decision method receives would be unchanged after the call; on a concrete
seed-only history, `should_terminate` with a negative base decision leaves
the received history changed, with a synthetic System framing message in
front and a synthetic User framing message at the end. -/
theorem C1_framing_counterexample :
    (should_terminate "taxation" { result := false, reason := "" }
        (fun _ => none) (fun _ => some { result := false, reason := "keep going" })
        [{ role := AuthorRole.user, content := "Please start the discussion." }]).history ≠
      [{ role := AuthorRole.user, content := "Please start the discussion." }] ∧
    ((should_terminate "taxation" { result := false, reason := "" }
        (fun _ => none) (fun _ => some { result := false, reason := "keep going" })
        [{ role := AuthorRole.user, content := "Please start the discussion." }]).history.map
      (fun m => m.role)) =
      [AuthorRole.system, AuthorRole.user, AuthorRole.user] := by
  constructor
  · intro hcontra
    have hre : (should_terminate "taxation" { result := false, reason := "" }
        (fun _ => none) (fun _ => some { result := false, reason := "keep going" })
        [{ role := AuthorRole.user, content := "Please start the discussion." }]).history =
        terminationFraming "taxation"
          [{ role := AuthorRole.user, content := "Please start the discussion." }] := rfl
    rw [hre] at hcontra
    have hlen := congrArg List.length hcontra
    simp [terminationFraming] at hlen
  · rfl

/-- C1 amended: when the base decision is negative, `should_terminate`
inserts the two synthetic framing messages directly into the history object
it receives (System framing prepended, User framing appended, the original
messages kept in between), and `select_next_agent` always does the same; no
transient copy is built inside the methods, so the canonical history is
isolated only if the caller passes a disposable copy. -/
theorem C1_framing_mutates_passed_history (topic : String) (base : BooleanResult)
    (tservice sservice : ChatHistory → Option String)
    (tparse : String → Option BooleanResult)
    (sparse : String → Option StringResult)
    (participant_descriptions : List (String × String))
    (chat_history : ChatHistory)
    (hbase : base.result = false) :
    (should_terminate topic base tservice tparse chat_history).history =
      terminationFraming topic chat_history ∧
    (select_next_agent topic participant_descriptions sservice sparse chat_history).history =
      selectionFraming topic participant_descriptions chat_history := by
  constructor
  · cases hp : tparse (contentOrDefault (tservice (terminationFraming topic chat_history))) with
    | none => simp [should_terminate, hbase, hp]
    | some r => simp [should_terminate, hbase, hp]
  · cases hp : sparse (contentOrDefault
        (sservice (selectionFraming topic participant_descriptions chat_history))) with
    | none => simp [select_next_agent, hp]
    | some r =>
      simp only [select_next_agent, hp]
      split <;> rfl

/-- Witness for the amended C1 at a concrete negative base decision. -/
theorem C1_framing_mutates_witness :
    ({ result := false, reason := "" } : BooleanResult).result = false ∧
    ((should_terminate "taxation" { result := false, reason := "" } (fun _ => none)
        (fun _ => some { result := false, reason := "keep" }) []).history =
      terminationFraming "taxation" [] ∧
    (select_next_agent "taxation" [("A", "a")] (fun _ => none)
        (fun _ => some { result := "A", reason := "r" }) []).history =
      selectionFraming "taxation" [("A", "a")] []) :=
  ⟨rfl, C1_framing_mutates_passed_history "taxation" { result := false, reason := "" }
    (fun _ => none) (fun _ => none) (fun _ => some { result := false, reason := "keep" })
    (fun _ => some { result := "A", reason := "r" }) [("A", "a")] [] rfl⟩

/-- C3: every selection decision `select_next_agent` accepts names a key of
the participant-descriptions registry, and a parsed response naming an
unregistered participant always yields the unknown-participant error — no
retry, no further generation. -/
theorem C3_selection_validated_against_registry (topic : String)
    (participant_descriptions : List (String × String))
    (service : ChatHistory → Option String)
    (parse : String → Option StringResult)
    (chat_history : ChatHistory) (r : StringResult) :
    (∀ sel : StringResult,
      (select_next_agent topic participant_descriptions service parse chat_history).outcome =
        Except.ok sel →
      (participant_descriptions.map Prod.fst).contains sel.result = true) ∧
    (parse (contentOrDefault
        (service (selectionFraming topic participant_descriptions chat_history))) = some r →
      (participant_descriptions.map Prod.fst).contains r.result = false →
      (select_next_agent topic participant_descriptions service parse chat_history).outcome =
        Except.error (ManagerError.unknownParticipant
          (contentOrDefault
            (service (selectionFraming topic participant_descriptions chat_history))))) := by
  constructor
  · intro sel hok
    cases hp : parse (contentOrDefault
        (service (selectionFraming topic participant_descriptions chat_history))) with
    | none => simp [select_next_agent, hp] at hok
    | some q =>
      simp only [select_next_agent, hp] at hok
      split at hok
      case isTrue hcq =>
        simp only [Except.ok.injEq] at hok
        rw [← hok]
        exact hcq
      case isFalse hcq =>
        simp at hok
  · intro hp hc
    simp only [select_next_agent, hp]
    rw [if_neg (by rw [hc]; exact Bool.false_ne_true)]

/-- Witness for C3: a concrete selector response naming "Ghost" against the
registry with keys A and B is rejected with the unknown-participant error. -/
theorem C3_selection_witness :
    (select_next_agent "t" [("A", "a"), ("B", "b")] (fun _ => none)
        (fun _ => some { result := "Ghost", reason := "g" }) []).outcome =
      Except.error (ManagerError.unknownParticipant "\x7b\x7d") :=
  (C3_selection_validated_against_registry "t" [("A", "a"), ("B", "b")]
      (fun _ => none) (fun _ => some { result := "Ghost", reason := "g" }) []
      { result := "Ghost", reason := "g" }).2 rfl (by decide)

/-- C4: with registry keys A and B and a selector response naming "Ghost" on
the first selection, the whole run fails with the unknown-participant error;
at the point of failure the canonical history contains only the seed message
and zero participant turns have executed. -/
theorem C4_ghost_selection_run :
    orchestrate "Please start the discussion."
      "How should your government approach taxation?" 10
      [{ name := "A", description := "a",
         generate := fun _ => { role := AuthorRole.assistant, content := "ma" } },
       { name := "B", description := "b",
         generate := fun _ => { role := AuthorRole.assistant, content := "mb" } }]
      (fun _ => none) (fun _ => none) (fun _ => none)
      (fun _ => some { result := false, reason := "continue" })
      (fun _ => some { result := "Ghost", reason := "g" })
      (fun _ => some { result := "s", reason := "r" }) =
      { outcome := Except.error (ManagerError.unknownParticipant "\x7b\x7d"),
        history := [{ role := AuthorRole.user, content := "Please start the discussion." }],
        turns := 0, rounds := [] } :=
  orchestrate_loop_selerror "How should your government approach taxation?" 10
    [{ name := "A", description := "a",
       generate := fun _ => { role := AuthorRole.assistant, content := "ma" } },
     { name := "B", description := "b",
       generate := fun _ => { role := AuthorRole.assistant, content := "mb" } }]
    (fun _ => none) (fun _ => none) (fun _ => none)
    (fun _ => some { result := false, reason := "continue" })
    (fun _ => some { result := "Ghost", reason := "g" })
    (fun _ => some { result := "s", reason := "r" })
    [{ role := AuthorRole.user, content := "Please start the discussion." }] 0
    { result := false, reason := "continue" }
    (ManagerError.unknownParticipant "\x7b\x7d")
    rfl ⟨rfl, by norm_num⟩ rfl

/-- C2: over a whole run the recorded round-index values are the consecutive
integers 0, 1, 2, ... (round-index increases by exactly 1 per completed
participant turn), the loop never executes more than `max_rounds` turns
whatever the termination evaluator and its parser do, and once round-index
has reached `max_rounds` the loop exits at once with no further turn. -/
theorem C2_round_monotonic_and_capped (task topic : String) (max_rounds : Nat)
    (participants : List Participant)
    (tservice sservice fservice : ChatHistory → Option String)
    (tparse : String → Option BooleanResult)
    (sparse fparse : String → Option StringResult) :
    (orchestrate task topic max_rounds participants
      tservice sservice fservice tparse sparse fparse).turns ≤ max_rounds ∧
    (orchestrate task topic max_rounds participants
        tservice sservice fservice tparse sparse fparse).rounds =
      List.range (orchestrate task topic max_rounds participants
        tservice sservice fservice tparse sparse fparse).turns ∧
    (∀ history round_index, max_rounds ≤ round_index →
      (orchestrate_loop topic max_rounds participants
        tservice sservice fservice tparse sparse fparse history round_index).turns =
        round_index ∧
      (orchestrate_loop topic max_rounds participants
        tservice sservice fservice tparse sparse fparse history round_index).rounds = []) := by
  obtain ⟨h1, h2, h3⟩ := orchestrate_loop_invariant topic max_rounds participants
    tservice sservice fservice tparse sparse fparse max_rounds 0
    [{ role := AuthorRole.user, content := task }] (by omega) (Nat.zero_le _)
  refine ⟨h2, ?_, ?_⟩
  · rw [List.range_eq_range']
    simpa using h3
  · intro history round_index hge
    have hbase : (should_terminate topic (baseShouldTerminate round_index max_rounds)
        tservice tparse history).outcome =
        Except.ok (baseShouldTerminate round_index max_rounds) := by
      unfold should_terminate baseShouldTerminate
      simp [hge]
    have hres : (baseShouldTerminate round_index max_rounds).result = true := by
      unfold baseShouldTerminate
      simp [hge]
    rw [orchestrate_loop_exit topic max_rounds participants tservice sservice fservice
      tparse sparse fparse history round_index _ hbase (by simp [hres])]
    exact ⟨rfl, rfl⟩

/-- Witness for C2 at a concrete configuration, including the forced-exit
clause applied strictly above the round cap. -/
theorem C2_round_cap_witness :
    (orchestrate "task" "t" 1 [] (fun _ => none) (fun _ => none) (fun _ => none)
      (fun _ => some { result := false, reason := "" })
      (fun _ => none) (fun _ => none)).turns ≤ 1 ∧
    (orchestrate_loop "t" 1 [] (fun _ => none) (fun _ => none) (fun _ => none)
      (fun _ => some { result := false, reason := "" })
      (fun _ => none) (fun _ => none) [] 3).turns = 3 := by
  obtain ⟨h1, h2, h3⟩ := C2_round_monotonic_and_capped "task" "t" 1 []
    (fun _ => none) (fun _ => none) (fun _ => none)
    (fun _ => some { result := false, reason := "" })
    (fun _ => none) (fun _ => none)
  exact ⟨h1, (h3 [] 3 (by norm_num)).1⟩

end GroupChat
